import Mathlib

/-!
Verification of the daily-bot repository: a shallow embedding of the data
collector (`collector.py`), the configuration class (`config.py`), the report
formatter (`utils/message_formatter.py`, `utils/progress_bar.py`), the source
adapters' pure formatting functions (`data_sources/*.py`) and the notifier
variants (`notifiers/*.py`), together with theorems settling the spec claims.

Modelling conventions:
* Python `int` is embedded as `Int` (or `Nat` where the source value is a
  count), Python `float` as `ℚ`.  Python float formatting `"{:.1f}"` is
  embedded as exact one-decimal rounding (half to even) of the rational value;
  Python `int(x)` truncation of a quotient of nonnegative values is embedded
  as `Nat` division.
* Python exceptions are embedded with `Except`; the outcome of an external
  HTTP call is passed to a function as an explicit oracle value.
* `pendulum.now()` / `datetime.now()` are embedded by passing the clock
  reading (`Clock`) as an explicit argument.
-/

namespace DailyBot

/-- Zero-pad a natural number to two digits, as pendulum's `MM` / `DD`. -/
def pad2 (n : Nat) : String :=
  if n < 10 then "0" ++ toString n else toString n

/-- Zero-pad a natural number to four digits, as pendulum's `YYYY`. -/
def pad4 (n : Nat) : String :=
  if n < 10 then "000" ++ toString n
  else if n < 100 then "00" ++ toString n
  else if n < 1000 then "0" ++ toString n
  else toString n

/-- Insert a comma every three digits, counting from the right; the input is
the reversed digit list.  Helper for Python's `"{:,}"` format spec. -/
def group3 : List Char → List Char
  | a :: b :: c :: d :: rest => a :: b :: c :: ',' :: group3 (d :: rest)
  | l => l

/-- Python `f"{n:,}"` for a nonnegative integer. -/
def commaNat (n : Nat) : String :=
  String.mk ((group3 (Nat.repr n).data.reverse).reverse)

/-- Python `f"{n:,}"` for an integer. -/
def commaInt (n : Int) : String :=
  if n < 0 then "-" ++ commaNat n.natAbs else commaNat n.natAbs

/-- Round `num / den` (with `den ≠ 0`) to the nearest integer, ties to even:
the rounding Python applies when formatting with `"{:.1f}"` (after scaling by
ten).  Returns 0 for `den = 0` (unreachable in the embedded code). -/
def round_half_even_frac (num : Int) (den : Nat) : Int :=
  if den = 0 then 0
  else
    let n := num.fdiv den
    let r := num - n * den
    if 2 * r < (den : Int) then n
    else if (den : Int) < 2 * r then n + 1
    else if n % 2 = 0 then n else n + 1

/-- Python `f"{x:.1f}"` for the rational `num / den` (`den ≠ 0`): one-decimal
fixed-point rendering with round-half-to-even.  The embedding rounds the exact
rational rather than its IEEE-754 double approximation; the two can differ only
on exact decimal ties (none of the verified statements exercises one). -/
def fmt1_frac (num : Int) (den : Nat) : String :=
  let r := round_half_even_frac (10 * num) den
  let sign := if r < 0 then "-" else ""
  sign ++ toString (r.natAbs / 10) ++ "." ++ toString (r.natAbs % 10)

/-- Python `f"{q:.1f}"` for a rational embedding of a Python float. -/
def fmt1 (q : ℚ) : String := fmt1_frac q.num q.den

/-- One clock reading, as obtained from `pendulum.now(TIMEZONE)` /
`datetime.now()`.  `day_of_week` is pendulum's weekday index as used by
`get_day_info` to index its weekday list. -/
structure Clock where
  year : Nat
  month : Nat
  day : Nat
  day_of_week : Nat
  day_of_year : Nat
  hour : Nat
  minute : Nat
  second : Nat
deriving DecidableEq, Repr

/-- Result of `progress_bar.get_day_info`. -/
structure DayInfo where
  date : String
  weekday : String
  day_of_year : Nat
deriving DecidableEq, Repr

/-- `progress_bar.get_day_info`: date string `YYYY年MM月DD日`, weekday name
indexed from the list `["一","二","三","四","五","六","日"]`, and day of year. -/
def get_day_info (c : Clock) : DayInfo :=
  { date := pad4 c.year ++ "年" ++ pad2 c.month ++ "月" ++ pad2 c.day ++ "日"
    weekday := (["一", "二", "三", "四", "五", "六", "日"].getD c.day_of_week "")
    day_of_year := c.day_of_year }

/-- `progress_bar.get_year_progress`: leap-year test
`year % 4 == 0 and (year % 100 != 0 or year % 400 == 0)`. -/
def is_leap_year (year : Nat) : Bool :=
  year % 4 == 0 && (year % 100 != 0 || year % 400 == 0)

/-- `total_days = 366 if is_leap_year else 365`. -/
def total_days (year : Nat) : Nat :=
  if is_leap_year year then 366 else 365

/-- `filled_blocks = int((day_of_year / total_days) * progress_bar_width)`
with `progress_bar_width = 20`.  The Python expression divides in double
precision and truncates; for every `1 ≤ d ≤ total ≤ 366` the result equals
the exact `⌊20 * d / total⌋`, which is how it is embedded. -/
def filled_blocks (d total : Nat) : Nat := 20 * d / total

/-- `empty_blocks = progress_bar_width - filled_blocks`. -/
def empty_blocks (d total : Nat) : Nat := 20 - filled_blocks d total

/-- `progress_bar = "█" * filled_blocks + "░" * empty_blocks`. -/
def progress_bar_chars (d total : Nat) : List Char :=
  List.replicate (filled_blocks d total) '█' ++ List.replicate (empty_blocks d total) '░'

/-- Count of filled block characters in a character list. -/
def count_filled (l : List Char) : Nat := l.count '█'

/-- Count of empty block characters in a character list. -/
def count_empty (l : List Char) : Nat := l.count '░'

/-- `progress_bar.get_year_progress`: the bar followed by the percentage
(`(day_of_year / total_days) * 100` formatted `"{:.1f}"`) and the
`(day/total)` counter. -/
def get_year_progress (c : Clock) : String :=
  let d := c.day_of_year
  let total := total_days c.year
  String.mk (progress_bar_chars d total) ++ " " ++ fmt1_frac (100 * d) total
    ++ "% (" ++ toString d ++ "/" ++ toString total ++ ")"

/-! ## Source payloads and their pure formatting functions -/

/-- One GitHub activity entry (`_process_search_items` / `_process_events`
record shape), as read by `format_github_message`. -/
structure Activity where
  title : String
  url : String
  repo : String
deriving DecidableEq, Repr

/-- Summary record returned by `github.get_github_stats` (success shape; the
failure shape additionally carries an `error` string and zeroed fields). -/
structure GithubData where
  commits : Nat
  prs_created : List Activity
  prs_merged : List Activity
  issues_closed : List Activity
  stars : List Activity
  week_streak : Nat
  has_activity : Bool
  error : Option String := none
deriving DecidableEq, Repr

/-- `github.format_github_message`. -/
def format_github_message (data : GithubData) : String :=
  if !data.has_activity then "💻 昨日编程\n• 昨天没有 GitHub 活动"
  else
    let lines := ["💻 昨日编程"]
    let lines := if 0 < data.commits
      then lines ++ ["• 提交了 " ++ toString data.commits ++ " 个 commits"] else lines
    let lines := lines ++ (data.prs_created.take 3).map (fun pr =>
      "• 创建了 PR: [" ++ pr.title ++ "](" ++ pr.url ++ ") (" ++ pr.repo ++ ")")
    let lines := lines ++ (data.prs_merged.take 2).map (fun pr =>
      "• 合并了 PR: [" ++ pr.title ++ "](" ++ pr.url ++ ") (" ++ pr.repo ++ ")")
    let lines := lines ++ (data.issues_closed.take 2).map (fun issue =>
      "• 关闭了 Issue: [" ++ issue.title ++ "](" ++ issue.url ++ ") (" ++ issue.repo ++ ")")
    let lines := lines ++ (data.stars.take 2).map (fun star =>
      "• Star 了项目: [" ++ star.repo ++ "](" ++ star.url ++ ")")
    let lines := if 0 < data.week_streak
      then lines ++ ["• 本周贡献: 连续 " ++ toString data.week_streak ++ " 天 🔥"] else lines
    "\n".intercalate lines

/-- The nonempty `sleep` sub-record of the xiaomi summary (`None` models the
empty dict, which is falsy in `format_xiaomi_message`). -/
structure SleepInfo where
  total_hours : ℚ
  deep_hours : ℚ
  sleep_start : Option String
deriving DecidableEq, Repr

/-- The nonempty `running` sub-record of the xiaomi summary. -/
structure RunningInfo where
  distance_km : ℚ
  week_total_km : ℚ
deriving DecidableEq, Repr

/-- Summary record returned by `xiaomi.get_xiaomi_stats`. -/
structure XiaomiData where
  error : Option String := none
  sleep : Option SleepInfo
  steps : Int
  running : Option RunningInfo
deriving DecidableEq, Repr

/-- `xiaomi.format_xiaomi_message`. -/
def format_xiaomi_message (data : XiaomiData) : String :=
  match data.error with
  | some e => "⚠️  小米运动: " ++ e
  | none =>
    let lines : List String := []
    let lines := match data.sleep with
      | none => lines
      | some sleep =>
        let lines := lines ++ ["😴 昨日睡眠"]
        if 0 < sleep.total_hours then
          let emoji := if 7 ≤ sleep.total_hours then "✅" else "⚠️"
          let lines := lines ++ ["• 睡眠时长: " ++ fmt1 sleep.total_hours ++ "小时 " ++ emoji]
          let lines := if 0 < sleep.deep_hours
            then lines ++ ["• 深度睡眠: " ++ fmt1 sleep.deep_hours ++ "小时"] else lines
          if sleep.sleep_start.getD "" ≠ ""
            then lines ++ ["• 入睡时间: " ++ sleep.sleep_start.getD ""] else lines
        else lines
    let lines :=
      if 0 < data.steps ∨ data.sleep.isSome then
        let lines := if lines ≠ [] then lines ++ [""] else lines
        let lines := lines ++ ["🏃 昨日运动"]
        if 0 < data.steps then lines ++ ["• 步数: " ++ commaInt data.steps ++ " 步"]
        else lines ++ ["• 昨日未运动"]
      else lines
    let lines := match data.running with
      | none => lines
      | some running =>
        if running.distance_km ≠ 0 then
          let lines := lines ++ ["• 跑步: " ++ fmt1 running.distance_km ++ " 公里"]
          if 0 < running.week_total_km
            then lines ++ ["• 本周累计: " ++ fmt1 running.week_total_km ++ " 公里"] else lines
        else lines
    "\n".intercalate lines

/-- One in-progress book entry of the weread summary. -/
structure Book where
  title : String
  progress : Int
deriving DecidableEq, Repr

/-- Summary record returned by `weread.get_weread_stats`. -/
structure WereadData where
  error : Option String := none
  yesterday_minutes : Int
  current_books : List Book
  monthly_minutes : Int
  total_hours : Int := 0
  finished_books : Int := 0
deriving DecidableEq, Repr

/-- `weread.format_weread_message`.  Python `//` and `%` are embedded with
`Int.fdiv` / `Int.emod` (floor division and nonnegative remainder, as in
Python). -/
def format_weread_message (data : WereadData) : String :=
  let lines := ["📚 昨日阅读"]
  match data.error with
  | some e => "\n".intercalate (lines ++ ["• ⚠️  " ++ e])
  | none =>
    let minutes := data.yesterday_minutes
    let lines :=
      if 0 < minutes then
        let hours := minutes.fdiv 60
        let remaining_mins := minutes.emod 60
        if 0 < hours
          then lines ++ ["• 阅读时长: " ++ toString hours ++ "小时" ++ toString remaining_mins ++ "分钟"]
          else lines ++ ["• 阅读时长: " ++ toString minutes ++ "分钟"]
      else lines ++ ["• 昨日未阅读"]
    let lines := lines ++ (data.current_books.take 2).map (fun book =>
      "• 《" ++ book.title ++ "》进度: " ++ toString book.progress ++ "%")
    let lines :=
      if 0 < data.monthly_minutes then
        let monthly_hours := data.monthly_minutes.fdiv 60
        if 0 < monthly_hours
          then lines ++ ["• 本月累计: " ++ toString monthly_hours ++ "小时"]
          else lines ++ ["• 本月累计: " ++ toString data.monthly_minutes ++ "分钟"]
      else lines
    let lines := if 0 < data.total_hours
      then lines ++ ["• 总阅读: " ++ toString data.total_hours ++ "小时"] else lines
    let lines := if 0 < data.finished_books
      then lines ++ ["• 已读完: " ++ toString data.finished_books ++ "本"] else lines
    "\n".intercalate lines

/-- Summary record returned by `duolingo.get_duolingo_stats`. -/
structure DuolingoData where
  error : Option String := none
  streak : Int
  completed_today : Bool
  xp_today : Int := 0
  xp_goal : Int := 20
  learning_language : Option String := none
  total_xp : Option Int := none
deriving DecidableEq, Repr

/-- The `language_map.get(language, language)` lookup of
`format_duolingo_message`. -/
def duolingo_language_name (language : String) : String :=
  match language with
  | "en" => "英语"
  | "es" => "西班牙语"
  | "fr" => "法语"
  | "de" => "德语"
  | "ja" => "日语"
  | "ko" => "韩语"
  | "zh" => "中文"
  | other => other

/-- `duolingo.format_duolingo_message`. -/
def format_duolingo_message (data : DuolingoData) : String :=
  let lines := ["🌍 多邻国"]
  match data.error with
  | some e => "\n".intercalate (lines ++ ["• ⚠️  获取数据失败: " ++ e])
  | none =>
    let streak := data.streak
    let lines :=
      if data.completed_today then
        lines ++ ["• 今日完成练习 ✅ (连续 " ++ toString streak ++ " 天)"]
      else if 0 < data.xp_today then
        lines ++ ["• 今日进度: " ++ toString data.xp_today ++ "/" ++ toString data.xp_goal
          ++ " XP (连续 " ++ toString streak ++ " 天)"]
      else
        lines ++ ["• 今日未完成 ⚠️ (连续 " ++ toString streak ++ " 天)"]
    let lines :=
      if data.learning_language.getD "" ≠ "" then
        lines ++ ["• 学习语言: " ++ duolingo_language_name (data.learning_language.getD "")]
      else lines
    let lines := match data.total_xp with
      | some xp => if xp ≠ 0 then lines ++ ["• 总经验值: " ++ commaInt xp ++ " XP"] else lines
      | none => lines
    "\n".intercalate lines

/-- Summary record returned by `poem.get_daily_poem`. -/
structure PoemData where
  poem : String
deriving DecidableEq, Repr

/-- `poem.DEFAULT_POEM`. -/
def DEFAULT_POEM : String :=
  "《苦笋》\n赏花归去马如飞,\n去马如飞酒力微,\n酒力微醒时已暮,\n醒时已暮赏花归。\n\n—— 宋·苏轼"

/-- `poem.format_poem_message` (its `data.get("poem", DEFAULT_POEM)` default
never fires on the typed record). -/
def format_poem_message (data : PoemData) : String :=
  "📝 每日一诗\n" ++ data.poem

/-- The apple_health summary as read by the formatting side
(`format_health_message`), with the sleep metric as its numeric value; the
adapter-level record with full float semantics (NaN, infinities) is
`HealthStats` below. -/
structure HealthData where
  steps : Int
  sleep_hours : ℚ
deriving DecidableEq, Repr

/-! ## Configuration (`config.py`) and attribute access -/

/-- The attributes the `Config` class defines (module `config.py`).  String
settings read from `os.getenv` without a default are `Option String`
(`None` when the environment variable is unset). -/
structure Config where
  NOTIFIER_TYPE : String := "telegram"
  TELEGRAM_BOT_TOKEN : Option String := none
  TELEGRAM_CHAT_ID : Option String := none
  DINGTALK_WEBHOOK : Option String := none
  DINGTALK_SECRET : Option String := none
  FEISHU_WEBHOOK : Option String := none
  WECOM_WEBHOOK : Option String := none
  ENABLE_GITHUB_ISSUE : Bool := false
  ENABLE_XIAOMI_SPORT : Bool := true
  ENABLE_WEREAD : Bool := true
  ENABLE_DUOLINGO : Bool := true
  ENABLE_GITHUB_STATS : Bool := true
  ENABLE_POEM : Bool := true
  ENABLE_TODO_REMINDER : Bool := true
  XIAOMI_USERNAME : Option String := none
  XIAOMI_PASSWORD : Option String := none
  WEREAD_COOKIE : Option String := none
  DUOLINGO_USERNAME : Option String := none
  DUOLINGO_JWT_TOKEN : Option String := none
  GITHUB_TOKEN : Option String := none
  GITHUB_USERNAME : Option String := none
  CONTACT_REMINDER_DAYS : Int := 7
  SLEEP_GOAL_HOURS : ℚ := mkRat 15 2
  STEP_GOAL : Int := 10000
deriving DecidableEq, Repr

/-- Python exception values relevant to the embedded code paths. -/
inductive PyError where
  | attributeError (name : String)
deriving DecidableEq, Repr

/-- A Python attribute value, as used in the collector's truthiness checks. -/
inductive PyValue where
  | vstr (s : String)
  | vbool (b : Bool)
  | vnone
deriving DecidableEq, Repr

/-- Python truthiness of an attribute value. -/
def PyValue.truthy : PyValue → Bool
  | .vstr s => s ≠ ""
  | .vbool b => b
  | .vnone => false

/-- Lift an optional-string attribute (`os.getenv` result) to a value. -/
def opt_str : Option String → PyValue
  | none => PyValue.vnone
  | some s => PyValue.vstr s

/-- Python attribute access `getattr(config, name)` on the `Config` instance:
attributes the class defines yield their value, every other name raises
`AttributeError`.  Only the attributes the collector's enablement checks read
are listed; in particular `ENABLE_APPLE_HEALTH`, `APPLE_HEALTH_STEPS`,
`APPLE_HEALTH_SLEEP_HOURS`, `ENABLE_STEAM`, `STEAM_API_KEY` and `STEAM_ID`
are not defined by `Config` and raise. -/
def config_getattr (c : Config) (name : String) : Except PyError PyValue :=
  match name with
  | "ENABLE_GITHUB_STATS" => .ok (.vbool c.ENABLE_GITHUB_STATS)
  | "GITHUB_TOKEN" => .ok (opt_str c.GITHUB_TOKEN)
  | "ENABLE_XIAOMI_SPORT" => .ok (.vbool c.ENABLE_XIAOMI_SPORT)
  | "XIAOMI_USERNAME" => .ok (opt_str c.XIAOMI_USERNAME)
  | "ENABLE_WEREAD" => .ok (.vbool c.ENABLE_WEREAD)
  | "WEREAD_COOKIE" => .ok (opt_str c.WEREAD_COOKIE)
  | "ENABLE_DUOLINGO" => .ok (.vbool c.ENABLE_DUOLINGO)
  | "DUOLINGO_USERNAME" => .ok (opt_str c.DUOLINGO_USERNAME)
  | "ENABLE_POEM" => .ok (.vbool c.ENABLE_POEM)
  | "ENABLE_GITHUB_ISSUE" => .ok (.vbool c.ENABLE_GITHUB_ISSUE)
  | "ENABLE_TODO_REMINDER" => .ok (.vbool c.ENABLE_TODO_REMINDER)
  | other => .error (.attributeError other)

/-- Python's short-circuiting `and` over fallible attribute reads. -/
def py_and (x : Except PyError PyValue) (y : Unit → Except PyError PyValue) :
    Except PyError PyValue :=
  match x with
  | .error e => .error e
  | .ok v => if v.truthy then y () else .ok v

/-- Python's short-circuiting `or` over fallible attribute reads. -/
def py_or (x : Except PyError PyValue) (y : Unit → Except PyError PyValue) :
    Except PyError PyValue :=
  match x with
  | .error e => .error e
  | .ok v => if v.truthy then .ok v else y ()

/-! ## The aggregator (`collector.collect_all_data`) -/

/-- Outcome of one adapter task under `asyncio.gather(..., return_exceptions=True)`:
either the returned summary value or the stringified raised exception. -/
inductive TaskOutcome (α : Type) where
  | ok (val : α)
  | exn (msg : String)
deriving DecidableEq, Repr

/-- The `sources` / `errors` accumulators of the collector's `data` dict (the
`timestamp` field is not modelled; no claim concerns it). -/
structure GatherResult (α : Type) where
  sources : List (String × α)
  errors : List String
deriving DecidableEq, Repr

/-- The recording loop of `collect_all_data` (lines 56–68): for each launched
task in launch order, a returned value is stored under `sources` keyed by the
source name and an exception is appended to `errors` as
`f"{source_name}: {str(result)}"`. -/
def record_results {α : Type} (tasks : List (String × TaskOutcome α)) : GatherResult α :=
  tasks.foldl
    (fun acc t =>
      match t.2 with
      | .ok v => { acc with sources := acc.sources ++ [(t.1, v)] }
      | .exn m => { acc with errors := acc.errors ++ [t.1 ++ ": " ++ m] })
    { sources := [], errors := [] }

/-- Enablement check `config.ENABLE_GITHUB_STATS and config.GITHUB_TOKEN`. -/
def cond_github (c : Config) : Except PyError Bool :=
  (py_and (config_getattr c "ENABLE_GITHUB_STATS")
    (fun _ => config_getattr c "GITHUB_TOKEN")).map PyValue.truthy

/-- Enablement check `config.ENABLE_XIAOMI_SPORT and config.XIAOMI_USERNAME`. -/
def cond_xiaomi (c : Config) : Except PyError Bool :=
  (py_and (config_getattr c "ENABLE_XIAOMI_SPORT")
    (fun _ => config_getattr c "XIAOMI_USERNAME")).map PyValue.truthy

/-- Enablement check `config.ENABLE_WEREAD and config.WEREAD_COOKIE`. -/
def cond_weread (c : Config) : Except PyError Bool :=
  (py_and (config_getattr c "ENABLE_WEREAD")
    (fun _ => config_getattr c "WEREAD_COOKIE")).map PyValue.truthy

/-- Enablement check `config.ENABLE_DUOLINGO and config.DUOLINGO_USERNAME`. -/
def cond_duolingo (c : Config) : Except PyError Bool :=
  (py_and (config_getattr c "ENABLE_DUOLINGO")
    (fun _ => config_getattr c "DUOLINGO_USERNAME")).map PyValue.truthy

/-- Enablement check `config.ENABLE_POEM`. -/
def cond_poem (c : Config) : Except PyError Bool :=
  (config_getattr c "ENABLE_POEM").map PyValue.truthy

/-- Enablement check `config.ENABLE_APPLE_HEALTH and
(config.APPLE_HEALTH_STEPS or config.APPLE_HEALTH_SLEEP_HOURS)`. -/
def cond_apple_health (c : Config) : Except PyError Bool :=
  (py_and (config_getattr c "ENABLE_APPLE_HEALTH")
    (fun _ => py_or (config_getattr c "APPLE_HEALTH_STEPS")
      (fun _ => config_getattr c "APPLE_HEALTH_SLEEP_HOURS"))).map PyValue.truthy

/-- Enablement check `config.ENABLE_STEAM and config.STEAM_API_KEY and
config.STEAM_ID`. -/
def cond_steam (c : Config) : Except PyError Bool :=
  (py_and (py_and (config_getattr c "ENABLE_STEAM")
      (fun _ => config_getattr c "STEAM_API_KEY"))
    (fun _ => config_getattr c "STEAM_ID")).map PyValue.truthy

/-- `collector.collect_all_data`: evaluate the seven enablement checks in
source order, accumulating `(source_name, task)` pairs, then gather and record
all launched tasks.  The adapter outcomes are supplied by the oracle `run`;
an `AttributeError` raised by an enablement check propagates (nothing in the
function catches it). -/
def collect_all_data {α : Type} (c : Config) (run : String → TaskOutcome α) :
    Except PyError (GatherResult α) :=
  (cond_github c).bind fun b1 =>
  let tasks := if b1 then [("github", run "github")] else []
  (cond_xiaomi c).bind fun b2 =>
  let tasks := tasks ++ (if b2 then [("xiaomi", run "xiaomi")] else [])
  (cond_weread c).bind fun b3 =>
  let tasks := tasks ++ (if b3 then [("weread", run "weread")] else [])
  (cond_duolingo c).bind fun b4 =>
  let tasks := tasks ++ (if b4 then [("duolingo", run "duolingo")] else [])
  (cond_poem c).bind fun b5 =>
  let tasks := tasks ++ (if b5 then [("poem", run "poem")] else [])
  (cond_apple_health c).bind fun b6 =>
  let tasks := tasks ++ (if b6 then [("apple_health", run "apple_health")] else [])
  (cond_steam c).bind fun b7 =>
  let tasks := tasks ++ (if b7 then [("steam", run "steam")] else [])
  .ok (record_results tasks)

/-! ## Entry point (`main.py`, `config.Config.validate`, `notifiers.get_notifier`) -/

/-- `Config.validate`: checks the credential of the selected notifier type. -/
def validate (c : Config) : Except String Unit :=
  let notifier_type := c.NOTIFIER_TYPE.toLower
  if notifier_type = "telegram" then
    if c.TELEGRAM_BOT_TOKEN.getD "" = "" then .error "TELEGRAM_BOT_TOKEN 未设置"
    else if c.TELEGRAM_CHAT_ID.getD "" = "" then .error "TELEGRAM_CHAT_ID 未设置"
    else .ok ()
  else if notifier_type = "dingtalk" then
    if c.DINGTALK_WEBHOOK.getD "" = "" then .error "DINGTALK_WEBHOOK 未设置" else .ok ()
  else if notifier_type = "feishu" then
    if c.FEISHU_WEBHOOK.getD "" = "" then .error "FEISHU_WEBHOOK 未设置" else .ok ()
  else if notifier_type = "wecom" then
    if c.WECOM_WEBHOOK.getD "" = "" then .error "WECOM_WEBHOOK 未设置" else .ok ()
  else .error ("不支持的通知器类型: " ++ notifier_type)

/-- A constructed notifier instance (`notifiers.get_notifier` result). -/
inductive NotifierInstance where
  | telegram (bot_token chat_id : String)
  | dingtalk (webhook : String) (secret : Option String)
  | feishu (webhook : String)
  | wecom (webhook : String)
deriving DecidableEq, Repr

/-- `notifiers.get_notifier`: construct the notifier selected by
`NOTIFIER_TYPE`, or `None` when its configuration is incomplete or the type
is unknown. -/
def get_notifier (c : Config) : Option NotifierInstance :=
  let notifier_type := c.NOTIFIER_TYPE.toLower
  if notifier_type = "telegram" then
    if c.TELEGRAM_BOT_TOKEN.getD "" = "" ∨ c.TELEGRAM_CHAT_ID.getD "" = "" then none
    else some (.telegram (c.TELEGRAM_BOT_TOKEN.getD "") (c.TELEGRAM_CHAT_ID.getD ""))
  else if notifier_type = "dingtalk" then
    if c.DINGTALK_WEBHOOK.getD "" = "" then none
    else some (.dingtalk (c.DINGTALK_WEBHOOK.getD "") c.DINGTALK_SECRET)
  else if notifier_type = "feishu" then
    if c.FEISHU_WEBHOOK.getD "" = "" then none
    else some (.feishu (c.FEISHU_WEBHOOK.getD ""))
  else if notifier_type = "wecom" then
    if c.WECOM_WEBHOOK.getD "" = "" then none
    else some (.wecom (c.WECOM_WEBHOOK.getD ""))
  else none

/-- `main.main`: validate the configuration, build the notifier, collect the
data, send; any exception escaping those steps is caught by the outer
`except Exception` handler and the process exits non-zero.  Returns the
process exit code; `send_ok` is the oracle for the final dispatch result. -/
def py_main {α : Type} (c : Config) (run : String → TaskOutcome α) (send_ok : Bool) : Nat :=
  match validate c with
  | .error _ => 1
  | .ok _ =>
    match get_notifier c with
    | none => 1
    | some _ =>
      match collect_all_data c run with
      | .error _ => 1
      | .ok _ => if send_ok then 0 else 1

/-! ## The report formatter (`utils/message_formatter.py`) -/

/-- The `sources` mapping of the collected data dict, with one slot per source
name the system can produce.  A `some` entry models the key being present.
The steam payload carries no data because nothing in the formatter reads it. -/
structure Sources where
  github : Option GithubData := none
  xiaomi : Option XiaomiData := none
  weread : Option WereadData := none
  duolingo : Option DuolingoData := none
  poem : Option PoemData := none
  apple_health : Option HealthData := none
  steam : Option Unit := none
deriving DecidableEq, Repr

/-- The DigestReport consumed by `format_daily_message`: the `sources` mapping
and the ordered `errors` list (the timestamp is read by nobody and not
modelled). -/
structure Report where
  sources : Sources := {}
  errors : List String := []
deriving DecidableEq, Repr

/-- The `"━━━━━━━━━━━━━━━━━━━━"` divider line. -/
def separator : String := "━━━━━━━━━━━━━━━━━━━━"

/-- The header section: greeting with date and weekday, then the day-of-year
line. -/
def header_section (c : Clock) : String :=
  let day_info := get_day_info c
  "🌅 早安!今天是 " ++ day_info.date ++ " 星期" ++ day_info.weekday ++ "\n\n"
    ++ "今天是今年第 " ++ toString day_info.day_of_year ++ " 天"

/-- The year-progress section: `f"📊 {datetime.now().year} 年度进度\n{year_progress}"`
(the year and the progress bar both read the current clock). -/
def year_section (c : Clock) : String :=
  "📊 " ++ toString c.year ++ " 年度进度\n" ++ get_year_progress c

/-- `format_daily_message`'s `sections` list, built by the same sequence of
appends as the Python function: header, divider, year progress, divider, then
one conditional block per source the function knows (xiaomi, github, weread,
duolingo, poem — weread and poem preceded by an extra divider), then the
error block (divider, headline, first three errors) when `errors` is
nonempty. -/
def message_sections (c : Clock) (data : Report) : List String :=
  let sections := [header_section c]
  let sections := sections ++ [separator]
  let sections := sections ++ [year_section c]
  let sections := sections ++ [separator]
  let sections := sections ++ (match data.sources.xiaomi with
    | some d => [format_xiaomi_message d]
    | none => [])
  let sections := sections ++ (match data.sources.github with
    | some d => [format_github_message d]
    | none => [])
  let sections := sections ++ (match data.sources.weread with
    | some d => [separator, format_weread_message d]
    | none => [])
  let sections := sections ++ (match data.sources.duolingo with
    | some d => [format_duolingo_message d]
    | none => [])
  let sections := sections ++ (match data.sources.poem with
    | some d => [separator, format_poem_message d]
    | none => [])
  let sections := sections ++ (if data.errors.isEmpty then []
    else [separator, "⚠️ 部分数据获取失败:"] ++ (data.errors.take 3).map (fun e => "• " ++ e))
  sections

/-- `format_daily_message`: the sections joined by blank lines. -/
def format_daily_message (c : Clock) (data : Report) : String :=
  "\n\n".intercalate (message_sections c data)

/-! Spec-side decomposition of the document, used to state the formatter
claims: the per-source blocks in their fixed order, the per-source sections
with their dividers, and the error tail. -/

/-- The formatted block of each source the formatter handles, in the fixed
presentation order, one per present source. -/
def source_blocks (s : Sources) : List String :=
  (match s.xiaomi with | some d => [format_xiaomi_message d] | none => [])
    ++ (match s.github with | some d => [format_github_message d] | none => [])
    ++ (match s.weread with | some d => [format_weread_message d] | none => [])
    ++ (match s.duolingo with | some d => [format_duolingo_message d] | none => [])
    ++ (match s.poem with | some d => [format_poem_message d] | none => [])

/-- The source sections as they appear in the document (blocks plus the extra
divider before the weread and poem blocks). -/
def source_sections (s : Sources) : List String :=
  (match s.xiaomi with | some d => [format_xiaomi_message d] | none => [])
    ++ (match s.github with | some d => [format_github_message d] | none => [])
    ++ (match s.weread with | some d => [separator, format_weread_message d] | none => [])
    ++ (match s.duolingo with | some d => [format_duolingo_message d] | none => [])
    ++ (match s.poem with | some d => [separator, format_poem_message d] | none => [])

/-- The trailing error block: omitted when no failure was recorded, otherwise
a divider, the headline and the first (at most) three recorded failures. -/
def error_tail (errors : List String) : List String :=
  if errors.isEmpty then []
  else [separator, "⚠️ 部分数据获取失败:"] ++ (errors.take 3).map (fun e => "• " ++ e)

/-- Number of sources present in the mapping (all seven source names). -/
def present_count (s : Sources) : Nat :=
  (if s.github.isSome then 1 else 0) + (if s.xiaomi.isSome then 1 else 0)
    + (if s.weread.isSome then 1 else 0) + (if s.duolingo.isSome then 1 else 0)
    + (if s.poem.isSome then 1 else 0) + (if s.apple_health.isSome then 1 else 0)
    + (if s.steam.isSome then 1 else 0)

/-- Number of present sources among the five the formatter handles. -/
def present_count_handled (s : Sources) : Nat :=
  (if s.github.isSome then 1 else 0) + (if s.xiaomi.isSome then 1 else 0)
    + (if s.weread.isSome then 1 else 0) + (if s.duolingo.isSome then 1 else 0)
    + (if s.poem.isSome then 1 else 0)

/-! ## Apple Health adapter (`data_sources/apple_health.py`) -/

/-- The ASCII whitespace Python strips around numeric string literals
(`str.strip()` on the argument of `int()` / `float()`).  The exotic Unicode
space code points Python also strips are not modelled; no claim exercises
them. -/
def is_py_space (c : Char) : Bool :=
  c == ' ' || c == '\t' || c == '\n' || c == '\r' || c == '\x0B' || c == '\x0C'

/-- Strip leading and trailing whitespace. -/
def strip_ws (l : List Char) : List Char :=
  ((l.dropWhile is_py_space).reverse.dropWhile is_py_space).reverse

/-- Continue a digit run after an initial digit: further digits, with single
underscores allowed only between two digits (Python's digit-group
underscores: `1_000` is accepted, `1__0`, `_1` and `1_` are not). -/
def digits_unders_go (acc : Nat) : List Char → Option Nat
  | [] => some acc
  | '_' :: c :: rest =>
    if c.isDigit then digits_unders_go (acc * 10 + (c.toNat - 48)) rest else none
  | c :: rest =>
    if c.isDigit then digits_unders_go (acc * 10 + (c.toNat - 48)) rest else none

/-- Value of a nonempty digit run with Python underscore grouping: must start
and end with a digit.  (Python additionally accepts non-ASCII decimal digits;
not modelled, no claim exercises them.) -/
def digits_unders : List Char → Option Nat
  | [] => none
  | c :: rest => if c.isDigit then digits_unders_go (c.toNat - 48) rest else none

/-- Number of digit characters in a list (the scale of a fraction part whose
underscores do not count). -/
def count_digits (l : List Char) : Nat := l.countP Char.isDigit

/-- Python `int(s)` (base 10): strip whitespace, optional sign, digit run
with underscore grouping; `none` models the `ValueError` branch. -/
def py_int (s : String) : Option Int :=
  match strip_ws s.data with
  | '-' :: rest => (digits_unders rest).map (fun n => -(n : Int))
  | '+' :: rest => (digits_unders rest).map (fun n => (n : Int))
  | l => (digits_unders l).map (fun n => (n : Int))

/-- A Python float as far as the health sanitization observes it: NaN, the
two infinities, or a finite value.  A finite double is modelled by the exact
value of its source literal; rounding a finite literal to binary (or
overflowing it to infinity) cannot move it across the clamp bounds `0.0` and
`24.0`, which is all the verified statements observe. -/
inductive PyFloat where
  | nan
  | inf
  | ninf
  | finite (q : ℚ)
deriving DecidableEq, Repr

/-- Python `<` on floats: any comparison involving NaN is false. -/
def PyFloat.lt : PyFloat → PyFloat → Bool
  | .nan, _ => false
  | _, .nan => false
  | .ninf, .ninf => false
  | .ninf, _ => true
  | _, .ninf => false
  | .inf, _ => false
  | .finite _, .inf => true
  | .finite a, .finite b => decide (a < b)

/-- Python `<=` on floats: any comparison involving NaN is false. -/
def PyFloat.le : PyFloat → PyFloat → Bool
  | .nan, _ => false
  | _, .nan => false
  | .ninf, _ => true
  | _, .ninf => false
  | _, .inf => true
  | .inf, _ => false
  | .finite a, .finite b => decide (a ≤ b)

/-- Negation, for a leading `-` sign (`float("-nan")` is NaN). -/
def PyFloat.neg : PyFloat → PyFloat
  | .nan => .nan
  | .inf => .ninf
  | .ninf => .inf
  | .finite q => .finite (-q)

/-- Python `max(x, y)`: `y` if `y > x` else `x` — so `max(nan, 0.0)` is NaN,
because no comparison with NaN holds. -/
def py_max (x y : PyFloat) : PyFloat := if PyFloat.lt x y then y else x

/-- Python `min(x, y)`: `y` if `y < x` else `x` — so `min(nan, 24.0)` is
NaN. -/
def py_min (x y : PyFloat) : PyFloat := if PyFloat.lt y x then y else x

/-- Parse the mantissa of a float literal: digit run, optional `.`, with at
least one digit, underscores only inside the digit runs.  Returns `(m, k)`
with value `m / 10^k`. -/
def parse_mantissa (l : List Char) : Option (Int × Nat) :=
  let ip := l.takeWhile (fun c => c ≠ '.')
  match l.dropWhile (fun c => c ≠ '.') with
  | [] => (digits_unders ip).map (fun n => ((n : Int), 0))
  | '.' :: fp =>
    match ip, fp with
    | [], [] => none
    | [], _ => (digits_unders fp).map (fun f => ((f : Int), count_digits fp))
    | _, [] => (digits_unders ip).map (fun n => ((n : Int), 0))
    | _, _ =>
      match digits_unders ip, digits_unders fp with
      | some i, some f => some ((i * 10 ^ count_digits fp + f : Int), count_digits fp)
      | _, _ => none
  | _ => none

/-- Parse the exponent of a float literal: optional sign, digit run. -/
def parse_exponent : List Char → Option Int
  | '-' :: rest => (digits_unders rest).map (fun n => -(n : Int))
  | '+' :: rest => (digits_unders rest).map (fun n => (n : Int))
  | l => (digits_unders l).map (fun n => (n : Int))

/-- The rational `(m / 10^k) * 10^ex`. -/
def scaled_rat (m : Int) (k : Nat) (ex : Int) : ℚ :=
  let net := ex - (k : Int)
  if 0 ≤ net then mkRat (m * 10 ^ net.toNat) 1 else mkRat m (10 ^ net.natAbs)

/-- Unsigned body of Python `float(s)` (already stripped and lowercased):
`nan`, `inf` / `infinity`, or mantissa with optional `e`-exponent. -/
def py_float_core (l : List Char) : Option PyFloat :=
  if l = "nan".data then some .nan
  else if l = "inf".data ∨ l = "infinity".data then some .inf
  else
    let mant := l.takeWhile (fun c => c ≠ 'e')
    match l.dropWhile (fun c => c ≠ 'e') with
    | [] => (parse_mantissa mant).map (fun p => .finite (scaled_rat p.1 p.2 0))
    | 'e' :: etail =>
      match parse_mantissa mant, parse_exponent etail with
      | some p, some ex => some (.finite (scaled_rat p.1 p.2 ex))
      | _, _ => none
    | _ => none

/-- Python `float(s)`: strip whitespace, case-insensitive, optional sign,
then `nan` / `inf` / `infinity` or a decimal literal with optional fraction,
underscore grouping and optional exponent; `none` models the `ValueError`
branch. -/
def py_float (s : String) : Option PyFloat :=
  match (strip_ws s.data).map Char.toLower with
  | '-' :: rest => (py_float_core rest).map PyFloat.neg
  | '+' :: rest => py_float_core rest
  | l => py_float_core l

/-- The steps clamp `min(max(steps_int, 0), 100000)` (on ints, Python's
`min` / `max` agree with the mathematical ones). -/
def clamp_steps (n : Int) : Int := min (max n 0) 100000

/-- The sleep clamp `min(max(sleep_float, 0.0), 24.0)` with Python's
`min` / `max` on floats: NaN falls through both comparisons and is returned
unclamped. -/
def clamp_sleep (x : PyFloat) : PyFloat :=
  py_min (py_max x (.finite 0)) (.finite 24)

/-- The steps branch of `get_health_stats`:
`steps_int = int(steps_str) if steps_str else 0` then the clamp, with the
`except ValueError` handler yielding `0` (after a logged warning). -/
def sanitize_steps (steps_str : Option String) : Int :=
  let s := steps_str.getD ""
  if s = "" then clamp_steps 0
  else
    match py_int s with
    | some n => clamp_steps n
    | none => 0

/-- The sleep branch of `get_health_stats`, analogous
(`float(sleep_hours_str) if sleep_hours_str else 0.0` then the clamp). -/
def sanitize_sleep (sleep_hours_str : Option String) : PyFloat :=
  let s := sleep_hours_str.getD ""
  if s = "" then clamp_sleep (.finite 0)
  else
    match py_float s with
    | some x => clamp_sleep x
    | none => .finite 0

/-- The record `get_health_stats` returns, with the sleep metric carrying the
full float semantics (`HealthData` is the formatter-side view of the same
dict; the formatter claims never exercise NaN). -/
structure HealthStats where
  steps : Int
  sleep_hours : PyFloat
deriving DecidableEq, Repr

/-- `apple_health.get_health_stats` as a function of the two attribute values
`config.APPLE_HEALTH_STEPS` / `config.APPLE_HEALTH_SLEEP_HOURS` it reads.
(On the shipped `Config` those attribute reads themselves raise
`AttributeError` — the configuration defect established by the collector
theorems; the sanitization below is the behaviour given the values.) -/
def get_health_stats (steps_str sleep_hours_str : Option String) : HealthStats :=
  { steps := sanitize_steps steps_str, sleep_hours := sanitize_sleep sleep_hours_str }

/-- The steps goal indicator `"✅" if steps >= config.STEP_GOAL else "📊"` of
`format_health_message`. -/
def step_goal_emoji (cfg : Config) (steps : Int) : String :=
  if cfg.STEP_GOAL ≤ steps then "✅" else "📊"

/-- The sleep goal indicator `"✅" if sleep_hours >= config.SLEEP_GOAL_HOURS
else "⚠️"` of `format_health_message`. -/
def sleep_goal_emoji (cfg : Config) (sleep_hours : ℚ) : String :=
  if cfg.SLEEP_GOAL_HOURS ≤ sleep_hours then "✅" else "⚠️"

/-- The steps bullet line of `format_health_message`. -/
def health_steps_line (cfg : Config) (steps : Int) : String :=
  "• 步数: " ++ commaInt steps ++ " 步 " ++ step_goal_emoji cfg steps

/-- The sleep bullet line of `format_health_message`. -/
def health_sleep_line (cfg : Config) (sleep_hours : ℚ) : String :=
  "• 睡眠: " ++ fmt1 sleep_hours ++ " 小时 " ++ sleep_goal_emoji cfg sleep_hours

/-- The lines of `apple_health.format_health_message`. -/
def format_health_lines (cfg : Config) (data : HealthData) : List String :=
  let lines := ["💪 昨日健康"]
  let lines := if 0 < data.steps then lines ++ [health_steps_line cfg data.steps] else lines
  let lines := if 0 < data.sleep_hours
    then lines ++ [health_sleep_line cfg data.sleep_hours] else lines
  if data.steps = 0 ∧ data.sleep_hours = 0 then lines ++ ["• 暂无数据"] else lines

/-- `apple_health.format_health_message`. -/
def format_health_message (cfg : Config) (data : HealthData) : String :=
  "\n".intercalate (format_health_lines cfg data)

/-! ## Poem adapter (`data_sources/poem.py`) -/

/-- The `origin` object extracted from the poetry API response
(`data.get("data", {}).get("origin", {})`). -/
structure PoemOrigin where
  title : String := ""
  dynasty : String := ""
  author : String := ""
  content : List String := []
deriving DecidableEq, Repr

/-- Outcome of the poem HTTP call: a raised exception (timeout, connection
failure, JSON decode error — anything the `except Exception` catches) or a
response with its status and extracted origin fields. -/
inductive PoemHttpOutcome where
  | raised (msg : String)
  | response (status : Nat) (origin : PoemOrigin)
deriving DecidableEq, Repr

/-- `poem.get_daily_poem`: on a 200 response with nonempty content, title and
author, the assembled poem; on any other response or on any raised exception,
the fixed `DEFAULT_POEM` — returned as an ordinary value, never an
exception. -/
def get_daily_poem (o : PoemHttpOutcome) : PoemData :=
  match o with
  | .raised _ => { poem := DEFAULT_POEM }
  | .response status origin =>
    if status = 200 then
      if origin.content ≠ [] ∧ origin.title ≠ "" ∧ origin.author ≠ "" then
        { poem := "《" ++ origin.title ++ "》\n" ++ "\n".intercalate origin.content
            ++ "\n\n—— " ++ origin.dynasty ++ "·" ++ origin.author }
      else { poem := DEFAULT_POEM }
    else { poem := DEFAULT_POEM }

/-! ## Notifiers (`notifiers/*.py`) -/

/-- The relevant fields of the webhook's JSON reply, as read with
`result.get('errcode')` (DingTalk, WeCom) and `result.get('StatusCode')`
(Feishu); `none` models a missing key, and `None == 0` is false in Python. -/
structure WebhookJson where
  errcode : Option Int := none
  StatusCode : Option Int := none
deriving DecidableEq, Repr

/-- Outcome of a webhook POST: a raised exception (connection error, JSON
decode failure, signing error — anything the `except Exception` catches), or
a reply with HTTP status and parsed JSON. -/
inductive SendOutcome where
  | raised (msg : String)
  | response (status : Nat) (result : WebhookJson)
deriving DecidableEq, Repr

/-- `DingTalkNotifier.send_message`: format (its `format_message` returns the
shared document unchanged), POST, succeed iff HTTP 200 with `errcode == 0`;
any exception yields `False`.  The HMAC query-string signing only alters the
URL and is not modelled. -/
def DingTalkNotifier.send_message (c : Clock) (data : Report) (o : SendOutcome) : Bool :=
  let _message := format_daily_message c data
  match o with
  | .raised _ => false
  | .response status result =>
    if status = 200 ∧ result.errcode = some 0 then true else false

/-- `WeComNotifier.send_message`: same success predicate as DingTalk. -/
def WeComNotifier.send_message (c : Clock) (data : Report) (o : SendOutcome) : Bool :=
  let _message := format_daily_message c data
  match o with
  | .raised _ => false
  | .response status result =>
    if status = 200 ∧ result.errcode = some 0 then true else false

/-- `TelegramNotifier.send_message`: format and send through the bot library;
there is no secondary code to check — success is exactly the bot call
returning, failure is any raised exception. -/
def TelegramNotifier.send_message (c : Clock) (data : Report) (o : Except String Unit) : Bool :=
  let _message := format_daily_message c data
  match o with
  | .ok _ => true
  | .error _ => false

/-- Leftmost match of the regex `\[([^\]]+)\]\(([^\)]+)\)` at the current
position: given the characters after a `[`, returns the replacement
(`label: url`) and the remainder, or `none` when the pattern does not match
here. -/
def match_link (rest : List Char) : Option (List Char × List Char) :=
  let label := rest.takeWhile (fun c => c ≠ ']')
  match label, rest.dropWhile (fun c => c ≠ ']') with
  | _ :: _, _ :: c2 :: r3 =>
    -- a nonempty `dropWhile (· ≠ ']')` result is necessarily headed by `]`,
    -- so consuming that head is the regex's literal `]`; `c2` must be `(`.
    if c2 = '(' then
      let url := r3.takeWhile (fun c => c ≠ ')')
      match url, r3.dropWhile (fun c => c ≠ ')') with
      | _ :: _, _ :: r5 => some (label ++ ':' :: ' ' :: url, r5)
      | _, _ => none
    else none
  | _, _ => none

theorem match_link_len {rest repl r5 : List Char}
    (h : match_link rest = some (repl, r5)) : r5.length < rest.length + 1 := by
  have hdrop : ∀ (p : Char → Bool) (l : List Char), (l.dropWhile p).length ≤ l.length := by
    intro p l
    induction l with
    | nil => simp [List.dropWhile]
    | cons a t ih =>
      simp only [List.dropWhile]
      cases p a <;> simp <;> omega
  unfold match_link at h
  dsimp only at h
  split at h
  case _ hd1 tl1 c1 c2 r3 hL hD =>
    have h2 : r3.length + 2 ≤ rest.length := by
      have := hdrop (fun c => c ≠ ']') rest
      rw [hD] at this
      simpa using this
    split at h
    · split at h
      case _ hd2 tl2 c3 r5x hU hD2 =>
        have h5 : r5x.length + 1 ≤ r3.length := by
          have := hdrop (fun c => c ≠ ')') r3
          rw [hD2] at this
          simpa using this
        cases h
        omega
      case _ => cases h
    · cases h
  case _ => cases h

/-- The scan of `re.sub(r'\[([^\]]+)\]\(([^\)]+)\)', r'\1: \2', message)`:
walk the text left to right; at each `[` try to match the hyperlink pattern
and, on success, emit `label: url` and continue after the match; otherwise
copy the character. -/
def stripGo : List Char → List Char
  | [] => []
  | c :: rest =>
    if c = '[' then
      match h : match_link rest with
      | some (repl, r5) => repl ++ stripGo r5
      | none => c :: stripGo rest
    else c :: stripGo rest
termination_by l => l.length
decreasing_by
· simpa using match_link_len h
· simp
· simp

/-- The markdown-hyperlink rewriting of `FeishuNotifier.format_message`. -/
def strip_markdown_links (s : String) : String :=
  String.mk (stripGo s.data)

/-- `FeishuNotifier.format_message`: the shared document with every markdown
hyperlink `[label](url)` rewritten to `label: url`. -/
def FeishuNotifier.format_message (c : Clock) (data : Report) : String :=
  strip_markdown_links (format_daily_message c data)

/-- `FeishuNotifier.send_message`: format as plain text, POST, succeed iff
HTTP 200 with `StatusCode == 0`; any exception yields `False`. -/
def FeishuNotifier.send_message (c : Clock) (data : Report) (o : SendOutcome) : Bool :=
  let _message := FeishuNotifier.format_message c data
  match o with
  | .raised _ => false
  | .response status result =>
    if status = 200 ∧ result.StatusCode = some 0 then true else false

/-! ## Shared lemmas -/

/-- The `sources` entry contributed by one gathered task. -/
def ok_entry {α : Type} (t : String × TaskOutcome α) : Option (String × α) :=
  match t.2 with
  | .ok v => some (t.1, v)
  | .exn _ => none

/-- The `errors` entry contributed by one gathered task. -/
def err_entry {α : Type} (t : String × TaskOutcome α) : Option String :=
  match t.2 with
  | .exn m => some (t.1 ++ ": " ++ m)
  | .ok _ => none

theorem record_results_aux {α : Type} (tasks : List (String × TaskOutcome α)) :
    ∀ acc : GatherResult α,
      tasks.foldl
        (fun acc t =>
          match t.2 with
          | .ok v => { acc with sources := acc.sources ++ [(t.1, v)] }
          | .exn m => { acc with errors := acc.errors ++ [t.1 ++ ": " ++ m] })
        acc
      = { sources := acc.sources ++ tasks.filterMap ok_entry
          errors := acc.errors ++ tasks.filterMap err_entry } := by
  induction tasks with
  | nil => intro acc; simp
  | cons t rest ih =>
    intro acc
    rcases t with ⟨n, out⟩
    cases out with
    | ok v => simp [List.foldl_cons, ih, ok_entry, err_entry, List.filterMap_cons]
    | exn m => simp [List.foldl_cons, ih, ok_entry, err_entry, List.filterMap_cons]

theorem record_results_eq {α : Type} (tasks : List (String × TaskOutcome α)) :
    record_results tasks
      = { sources := tasks.filterMap ok_entry, errors := tasks.filterMap err_entry } := by
  unfold record_results
  simpa using record_results_aux tasks { sources := [], errors := [] }

theorem length_filterMap_eq_countP {α β : Type} (f : α → Option β) (l : List α) :
    (l.filterMap f).length = l.countP (fun a => (f a).isSome) := by
  induction l with
  | nil => simp
  | cons a t ih =>
    rw [List.filterMap_cons, List.countP_cons]
    cases h : f a <;> simp [h, ih]

theorem mem_filterMap_ok_entry_key {α : Type} {tasks : List (String × TaskOutcome α)}
    {p : String × α} (hp : p ∈ tasks.filterMap ok_entry) : p.1 ∈ tasks.map Prod.fst := by
  rcases List.mem_filterMap.mp hp with ⟨t, ht, he⟩
  rcases t with ⟨n, out⟩
  cases out with
  | ok v =>
    simp only [ok_entry] at he
    cases he
    exact List.mem_map.mpr ⟨(n, .ok v), ht, rfl⟩
  | exn m => simp [ok_entry] at he

theorem countP_ok_entry_key_eq_one {α : Type} (tasks : List (String × TaskOutcome α))
    (n : String) (v : α) (hn : (tasks.map Prod.fst).Nodup)
    (hv : (n, TaskOutcome.ok v) ∈ tasks) :
    (tasks.filterMap ok_entry).countP (fun p => p.1 == n) = 1 := by
  induction tasks with
  | nil => cases hv
  | cons t rest ih =>
    rw [List.map_cons, List.nodup_cons] at hn
    rcases List.mem_cons.mp hv with heq | hmem
    · have ht : t = (n, TaskOutcome.ok v) := heq.symm
      subst ht
      rw [List.filterMap_cons]
      simp only [ok_entry, List.countP_cons]
      have hzero : (rest.filterMap ok_entry).countP (fun p => p.1 == n) = 0 := by
        rw [List.countP_eq_zero]
        intro p hp
        have hkey := mem_filterMap_ok_entry_key hp
        simp only [beq_iff_eq]
        intro hpk
        exact hn.1 (hpk ▸ hkey)
      simp [hzero]
    · have hone := ih hn.2 hmem
      have hkeymem : n ∈ rest.map Prod.fst :=
        List.mem_map.mpr ⟨(n, .ok v), hmem, rfl⟩
      rcases t with ⟨m, out⟩
      cases out with
      | ok w =>
        rw [List.filterMap_cons]
        simp only [ok_entry]
        rw [List.countP_cons]
        have hne : (m == n) = false := by
          simp only [beq_eq_false_iff_ne, ne_eq]
          intro hmn
          exact hn.1 (hmn ▸ hkeymem)
        simp [hne, hone]
      | exn msg =>
        rw [List.filterMap_cons]
        simp only [ok_entry]
        simp [hone]

/-! ## Claim theorems -/

/-- Claim C1: the aggregator's recording loop gives every gathered adapter
exactly one entry: `sources` is exactly the list of `(name, value)` pairs of
the tasks that returned, in launch order, `errors` is exactly the list of
`"<name>: <message>"` strings of the tasks that raised, in launch order (so
their lengths are the respective task counts and nothing is dropped), every
raising task's formatted string is in `errors`, and — the launched names being
distinct — a returning adapter's name keys exactly one `sources` entry,
namely its value. -/
theorem c1_aggregator_records_each_adapter_exactly_once {α : Type}
    (tasks : List (String × TaskOutcome α)) :
    (record_results tasks).sources = tasks.filterMap ok_entry
    ∧ (record_results tasks).errors = tasks.filterMap err_entry
    ∧ (record_results tasks).sources.length = tasks.countP (fun t => (ok_entry t).isSome)
    ∧ (record_results tasks).errors.length = tasks.countP (fun t => (err_entry t).isSome)
    ∧ (∀ n m, (n, TaskOutcome.exn m) ∈ tasks → (n ++ ": " ++ m) ∈ (record_results tasks).errors)
    ∧ ((tasks.map Prod.fst).Nodup → ∀ n v, (n, TaskOutcome.ok v) ∈ tasks →
        (record_results tasks).sources.countP (fun p => p.1 == n) = 1
        ∧ (n, v) ∈ (record_results tasks).sources) := by
  rw [record_results_eq]
  refine ⟨rfl, rfl, length_filterMap_eq_countP _ _, length_filterMap_eq_countP _ _, ?_, ?_⟩
  · intro n m hm
    exact List.mem_filterMap.mpr ⟨(n, .exn m), hm, rfl⟩
  · intro hn n v hv
    exact ⟨countP_ok_entry_key_eq_one tasks n v hn hv,
      List.mem_filterMap.mpr ⟨(n, .ok v), hv, rfl⟩⟩

/-- Witness for C1: three launched adapters of which exactly the second
raises — the two returning entries are recorded, the raiser contributes
exactly the one formatted string. -/
theorem c1_aggregator_witness :
    ((([("github", TaskOutcome.ok 1), ("xiaomi", TaskOutcome.exn "boom"),
        ("poem", TaskOutcome.ok 3)] : List (String × TaskOutcome Nat)).map Prod.fst).Nodup
      = True)
    ∧ (record_results [("github", TaskOutcome.ok 1), ("xiaomi", TaskOutcome.exn "boom"),
        ("poem", TaskOutcome.ok 3)]).sources.countP (fun p => p.1 == "github") = 1
    ∧ (record_results [("github", TaskOutcome.ok 1), ("xiaomi", TaskOutcome.exn "boom"),
        ("poem", TaskOutcome.ok 3)]).sources
      = [("github", 1), ("poem", 3)]
    ∧ (record_results [("github", TaskOutcome.ok 1), ("xiaomi", TaskOutcome.exn "boom"),
        ("poem", TaskOutcome.ok 3)]).errors
      = ["xiaomi: boom"] := by
  have h := c1_aggregator_records_each_adapter_exactly_once
    [("github", TaskOutcome.ok 1), ("xiaomi", TaskOutcome.exn "boom"),
      ("poem", TaskOutcome.ok 3)]
  refine ⟨by simp, (h.2.2.2.2.2 (by decide) "github" 1 (by decide)).1, ?_, ?_⟩
  · exact h.1.trans (by decide)
  · exact h.2.1.trans (by decide)

theorem cond_github_eq (c : Config) :
    cond_github c = Except.ok (c.ENABLE_GITHUB_STATS && (opt_str c.GITHUB_TOKEN).truthy) := by
  unfold cond_github py_and
  simp only [config_getattr]
  cases hE : c.ENABLE_GITHUB_STATS <;> simp [PyValue.truthy, Except.map]

theorem cond_xiaomi_eq (c : Config) :
    cond_xiaomi c = Except.ok (c.ENABLE_XIAOMI_SPORT && (opt_str c.XIAOMI_USERNAME).truthy) := by
  unfold cond_xiaomi py_and
  simp only [config_getattr]
  cases hE : c.ENABLE_XIAOMI_SPORT <;> simp [PyValue.truthy, Except.map]

theorem cond_weread_eq (c : Config) :
    cond_weread c = Except.ok (c.ENABLE_WEREAD && (opt_str c.WEREAD_COOKIE).truthy) := by
  unfold cond_weread py_and
  simp only [config_getattr]
  cases hE : c.ENABLE_WEREAD <;> simp [PyValue.truthy, Except.map]

theorem cond_duolingo_eq (c : Config) :
    cond_duolingo c = Except.ok (c.ENABLE_DUOLINGO && (opt_str c.DUOLINGO_USERNAME).truthy) := by
  unfold cond_duolingo py_and
  simp only [config_getattr]
  cases hE : c.ENABLE_DUOLINGO <;> simp [PyValue.truthy, Except.map]

theorem cond_poem_eq (c : Config) : cond_poem c = Except.ok c.ENABLE_POEM := by
  unfold cond_poem
  simp [config_getattr, PyValue.truthy, Except.map]

theorem cond_apple_health_err (c : Config) :
    cond_apple_health c = Except.error (PyError.attributeError "ENABLE_APPLE_HEALTH") := by
  unfold cond_apple_health py_and
  simp [config_getattr, Except.map]

/-- Claim C2: on every configuration the collector raises
`AttributeError("ENABLE_APPLE_HEALTH")` while evaluating its enablement
checks — before any task is gathered and whatever the adapters would have
returned — because the `Config` class defines none of the Apple-Health /
Steam attributes the checks read; the aggregator therefore never returns a
report, and `main`, which alone catches the exception, exits non-zero (in
fact the process exit code is 1 on every input). -/
theorem c2_collector_always_raises_attribute_error {α : Type} (c : Config)
    (run : String → TaskOutcome α) (send_ok : Bool) :
    collect_all_data c run = Except.error (PyError.attributeError "ENABLE_APPLE_HEALTH")
    ∧ py_main c run send_ok = 1 := by
  have hcoll : collect_all_data c run
      = Except.error (PyError.attributeError "ENABLE_APPLE_HEALTH") := by
    unfold collect_all_data
    rw [cond_github_eq, cond_xiaomi_eq, cond_weread_eq, cond_duolingo_eq, cond_poem_eq,
      cond_apple_health_err]
    rfl
  refine ⟨hcoll, ?_⟩
  unfold py_main
  rcases hval : validate c with e | u
  · rfl
  · rcases hnot : get_notifier c with _ | inst
    · rfl
    · rw [hcoll]

/-- Claim C3 counterexample: for day-of-year 1 of a 365-day year the bar has
0 filled blocks, not 1 as claimed (`int((1/365)*20) = 0`). -/
theorem c3_counterexample :
    count_filled (progress_bar_chars 1 365) = 0
    ∧ count_filled (progress_bar_chars 1 365) ≠ 1 := by decide

/-- Claim C3 (amended): the bar for day-of-year `d` of a year with `total`
days has exactly `⌊20 * d / total⌋` filled and `20` minus that many empty
blocks; leap years (`total = 366`) are selected exactly when the year is
divisible by 4 and (not divisible by 100 or divisible by 400); for
`d = 365, total = 365` all 20 blocks are filled, and for `d = 1, total = 365`
the bar has 0 filled blocks (not 1: the claimed example contradicts the
claimed formula, and the code follows the formula). -/
theorem c3_year_progress_bar (year d : Nat) :
    count_filled (progress_bar_chars d (total_days year)) = 20 * d / total_days year
    ∧ count_empty (progress_bar_chars d (total_days year)) = 20 - 20 * d / total_days year
    ∧ (total_days year = 366 ↔ year % 4 = 0 ∧ (year % 100 ≠ 0 ∨ year % 400 = 0))
    ∧ count_filled (progress_bar_chars 365 365) = 20
    ∧ count_filled (progress_bar_chars 1 365) = 0 := by
  refine ⟨?_, ?_, ?_, by decide, by decide⟩
  · simp [count_filled, progress_bar_chars, filled_blocks, empty_blocks,
      List.count_append, List.count_replicate]
  · simp [count_empty, progress_bar_chars, filled_blocks, empty_blocks,
      List.count_append, List.count_replicate]
  · have h : total_days year = 366 ↔ is_leap_year year = true := by
      unfold total_days
      split <;> simp_all
    rw [h]
    simp [is_leap_year, Nat.beq_eq_true_eq]

/-- Claim C4: the formatter is a pure function of the report and the clock
reading, and it reads nothing of the clock beyond the calendar fields the
header displays (year, month, day, weekday, day-of-year): two runs on the
same DigestReport with clock reads agreeing on those fields — in particular
at any two times of the same day — produce the identical document. -/
theorem c4_formatter_deterministic (t1 t2 : Clock) (r1 r2 : Report)
    (hy : t1.year = t2.year) (hm : t1.month = t2.month) (hd : t1.day = t2.day)
    (hw : t1.day_of_week = t2.day_of_week) (hdy : t1.day_of_year = t2.day_of_year)
    (hr : r1 = r2) :
    format_daily_message t1 r1 = format_daily_message t2 r2 := by
  subst hr
  cases t1
  cases t2
  simp only at hy hm hd hw hdy
  subst hy
  subst hm
  subst hd
  subst hw
  subst hdy
  rfl

/-- Witness for C4: morning and just-before-midnight clock reads of the same
day yield the identical document. -/
theorem c4_formatter_deterministic_witness :
    format_daily_message ⟨2025, 10, 12, 6, 285, 8, 0, 0⟩ {}
      = format_daily_message ⟨2025, 10, 12, 6, 285, 23, 59, 59⟩ {} :=
  c4_formatter_deterministic ⟨2025, 10, 12, 6, 285, 8, 0, 0⟩
    ⟨2025, 10, 12, 6, 285, 23, 59, 59⟩ {} {} rfl rfl rfl rfl rfl rfl

/-- Claim C5 counterexample: a report whose `sources` mapping contains
exactly one present source (apple_health) formats to the very same document
as the report with no sources at all — the formatter has no block for
apple_health (nor steam), so the document does not contain one block per
present source. -/
theorem c5_counterexample :
    present_count { apple_health := some ⟨5000, 7⟩ } = 1
    ∧ present_count {} = 0
    ∧ format_daily_message ⟨2025, 10, 12, 6, 285, 8, 0, 0⟩
        { sources := { apple_health := some ⟨5000, 7⟩ }, errors := [] }
      = format_daily_message ⟨2025, 10, 12, 6, 285, 8, 0, 0⟩
        { sources := {}, errors := [] } := by
  exact ⟨by decide, by decide, rfl⟩

theorem mem_source_sections_of_mem_blocks {s : Sources} {b : String}
    (hb : b ∈ source_blocks s) : b ∈ source_sections s := by
  rcases s with ⟨g, x, w, dl, p, ah, st⟩
  unfold source_blocks at hb
  unfold source_sections
  cases g <;> cases x <;> cases w <;> cases dl <;> cases p <;>
    simp_all <;> tauto

/-- Claim C5 (amended): the document consists of the fixed header part, then
one block per present source among the five sources the formatter handles
(xiaomi, github, weread, duolingo, poem — apple_health and steam entries get
no block), in that fixed order independent of which sources are present (the
weread and poem blocks preceded by an extra divider), then an errors block
listing the first at-most-3 recorded failures, omitted exactly when the
error list is empty. -/
theorem c5_formatter_block_per_handled_source (c : Clock) (r : Report) :
    message_sections c r
      = [header_section c, separator, year_section c, separator]
        ++ source_sections r.sources ++ error_tail r.errors
    ∧ (source_blocks r.sources).length = present_count_handled r.sources
    ∧ (∀ b ∈ source_blocks r.sources, b ∈ message_sections c r)
    ∧ (r.errors = [] ↔ error_tail r.errors = [])
    ∧ (r.errors ≠ [] → error_tail r.errors
        = [separator, "⚠️ 部分数据获取失败:"] ++ (r.errors.take 3).map (fun e => "• " ++ e)) := by
  refine ⟨?_, ?_, ?_, ?_, ?_⟩
  · simp [message_sections, source_sections, error_tail, List.append_assoc]
  · rcases r with ⟨s, errors⟩
    rcases s with ⟨g, x, w, dl, p, ah, st⟩
    cases g <;> cases x <;> cases w <;> cases dl <;> cases p <;>
      simp [source_blocks, present_count_handled]
  · intro b hb
    have hss := mem_source_sections_of_mem_blocks hb
    have hdecomp : message_sections c r
        = [header_section c, separator, year_section c, separator]
          ++ source_sections r.sources ++ error_tail r.errors := by
      simp [message_sections, source_sections, error_tail, List.append_assoc]
    rw [hdecomp]
    exact List.mem_append.mpr (Or.inl (List.mem_append.mpr (Or.inr hss)))
  · cases r.errors <;> simp [error_tail]
  · intro h
    rw [error_tail, if_neg (by simpa using h)]

/-- Witness for C5: a report with one present handled source and four
recorded failures — one block, and the error tail lists exactly the first
three failures. -/
theorem c5_formatter_witness :
    (source_blocks { poem := some ⟨"某诗"⟩ }).length = 1
    ∧ error_tail ["a: x", "b: y", "c: z", "d: w"]
      = [separator, "⚠️ 部分数据获取失败:", "• a: x", "• b: y", "• c: z"]
    ∧ format_poem_message ⟨"某诗"⟩
      ∈ message_sections ⟨2025, 10, 12, 6, 285, 8, 0, 0⟩
          { sources := { poem := some ⟨"某诗"⟩ }, errors := ["a: x", "b: y", "c: z", "d: w"] } := by
  have h := c5_formatter_block_per_handled_source ⟨2025, 10, 12, 6, 285, 8, 0, 0⟩
    { sources := { poem := some ⟨"某诗"⟩ }, errors := ["a: x", "b: y", "c: z", "d: w"] }
  refine ⟨h.2.1.trans (by decide), (h.2.2.2.2 (by decide)).trans (by decide), ?_⟩
  exact h.2.2.1 (format_poem_message ⟨"某诗"⟩) (by decide)

/-- Claim C6 (code bug): the poem adapter does return the fixed default poem
as an in-band success when its HTTP call raises, and a report carrying that
entry does format with a poem block and no error entries — but on the shipped
code the poem-only scenario never reaches that point: with every source but
the poem feed disabled, `collect_all_data` raises
`AttributeError("ENABLE_APPLE_HEALTH")` at the Apple-Health enablement check
and returns no report at all, contradicting the claimed end-to-end
behaviour. -/
theorem c6_poem_fallback_blocked_by_config_bug :
    get_daily_poem (.raised "timeout") = { poem := DEFAULT_POEM }
    ∧ format_poem_message { poem := DEFAULT_POEM }
      ∈ message_sections ⟨2025, 10, 12, 6, 285, 8, 0, 0⟩
          { sources := { poem := some { poem := DEFAULT_POEM } }, errors := [] }
    ∧ collect_all_data
        { ENABLE_GITHUB_STATS := false, ENABLE_XIAOMI_SPORT := false,
          ENABLE_WEREAD := false, ENABLE_DUOLINGO := false, ENABLE_POEM := true }
        (fun _ => TaskOutcome.ok (get_daily_poem (.raised "timeout")))
      = Except.error (PyError.attributeError "ENABLE_APPLE_HEALTH") := by
  exact ⟨rfl, by decide, rfl⟩

/-- Claim C7: every notifier variant's `send_message` is a total
boolean-valued function of its inputs and the dispatch outcome (so nothing
propagates to the caller), returning `True` exactly on the variant's success
predicate — HTTP 200 with `errcode == 0` (DingTalk, WeCom), HTTP 200 with
`StatusCode == 0` (Feishu), and for Telegram, whose bot call has no secondary
code to check, exactly when the call returns without raising — and in
particular `False` on every raised exception and every response failing the
predicate. -/
theorem c7_notifiers_fail_closed (c : Clock) (data : Report) (o : SendOutcome)
    (ot : Except String Unit) :
    (DingTalkNotifier.send_message c data o = true
      ↔ ∃ r, o = SendOutcome.response 200 r ∧ r.errcode = some 0)
    ∧ (WeComNotifier.send_message c data o = true
      ↔ ∃ r, o = SendOutcome.response 200 r ∧ r.errcode = some 0)
    ∧ (FeishuNotifier.send_message c data o = true
      ↔ ∃ r, o = SendOutcome.response 200 r ∧ r.StatusCode = some 0)
    ∧ (TelegramNotifier.send_message c data ot = true ↔ ot = Except.ok ())
    ∧ (∀ m, DingTalkNotifier.send_message c data (SendOutcome.raised m) = false
        ∧ WeComNotifier.send_message c data (SendOutcome.raised m) = false
        ∧ FeishuNotifier.send_message c data (SendOutcome.raised m) = false
        ∧ TelegramNotifier.send_message c data (Except.error m) = false) := by
  refine ⟨?_, ?_, ?_, ?_, fun m => ⟨rfl, rfl, rfl, rfl⟩⟩
  · cases o with
    | raised m => simp [DingTalkNotifier.send_message]
    | response status result =>
      simp only [DingTalkNotifier.send_message]
      constructor
      · intro h
        split at h
        · rename_i hc
          exact ⟨result, by rw [hc.1], hc.2⟩
        · cases h
      · rintro ⟨r, hr, hc⟩
        cases hr
        simp [hc]
  · cases o with
    | raised m => simp [WeComNotifier.send_message]
    | response status result =>
      simp only [WeComNotifier.send_message]
      constructor
      · intro h
        split at h
        · rename_i hc
          exact ⟨result, by rw [hc.1], hc.2⟩
        · cases h
      · rintro ⟨r, hr, hc⟩
        cases hr
        simp [hc]
  · cases o with
    | raised m => simp [FeishuNotifier.send_message]
    | response status result =>
      simp only [FeishuNotifier.send_message]
      constructor
      · intro h
        split at h
        · rename_i hc
          exact ⟨result, by rw [hc.1], hc.2⟩
        · cases h
      · rintro ⟨r, hr, hc⟩
        cases hr
        simp [hc]
  · cases ot with
    | ok u => cases u; simp [TelegramNotifier.send_message]
    | error m => simp [TelegramNotifier.send_message]

/-- Witness for C7: a 200 reply with zero error code succeeds, a 500 reply
and a raised exception fail, on every variant. -/
theorem c7_notifiers_witness :
    DingTalkNotifier.send_message ⟨2025, 10, 12, 6, 285, 8, 0, 0⟩ {}
      (SendOutcome.response 200 { errcode := some 0 }) = true
    ∧ FeishuNotifier.send_message ⟨2025, 10, 12, 6, 285, 8, 0, 0⟩ {}
      (SendOutcome.response 500 { StatusCode := some 0 }) = false
    ∧ WeComNotifier.send_message ⟨2025, 10, 12, 6, 285, 8, 0, 0⟩ {}
      (SendOutcome.raised "connection refused") = false
    ∧ TelegramNotifier.send_message ⟨2025, 10, 12, 6, 285, 8, 0, 0⟩ {}
      (Except.error "bad token") = false := by
  have h := c7_notifiers_fail_closed ⟨2025, 10, 12, 6, 285, 8, 0, 0⟩ {}
    (SendOutcome.response 200 { errcode := some 0 }) (Except.error "bad token")
  have h2 := c7_notifiers_fail_closed ⟨2025, 10, 12, 6, 285, 8, 0, 0⟩ {}
    (SendOutcome.response 500 { StatusCode := some 0 }) (Except.error "bad token")
  refine ⟨h.1.mpr ⟨{ errcode := some 0 }, rfl, rfl⟩, ?_, ?_, ?_⟩
  · have := h2.2.2.1
    simp only [Bool.eq_false_iff]
    intro hcontra
    rcases this.mp hcontra with ⟨r, hr, _⟩
    cases hr
  · exact (h.2.2.2.2 "connection refused").2.1
  · exact (h.2.2.2.2 "bad token").2.2.2

theorem clamp_steps_nonneg (n : Int) : 0 ≤ clamp_steps n :=
  le_min (le_max_right n 0) (by norm_num)

theorem clamp_steps_le (n : Int) : clamp_steps n ≤ 100000 := min_le_right _ _

theorem clamp_steps_idem (n : Int) : clamp_steps (clamp_steps n) = clamp_steps n := by
  have h0 : (0 : Int) ≤ min (max n 0) 100000 := clamp_steps_nonneg n
  have hle : min (max n 0) 100000 ≤ (100000 : Int) := min_le_right _ _
  unfold clamp_steps at h0 hle ⊢
  rw [max_eq_left h0, min_eq_left hle]

theorem clamp_sleep_finite (q : ℚ) :
    clamp_sleep (.finite q) = .finite (if q < 0 then 0 else if 24 < q then 24 else q) := by
  unfold clamp_sleep py_max py_min
  by_cases h0 : q < 0
  · have h24 : ¬ (24 : ℚ) < 0 := by norm_num
    simp [PyFloat.lt, h0, h24]
  · by_cases h24 : 24 < q
    · simp [PyFloat.lt, h0, h24]
    · simp [PyFloat.lt, h0, h24]

theorem clamp_sleep_idem (x : PyFloat) : clamp_sleep (clamp_sleep x) = clamp_sleep x := by
  cases x with
  | nan => decide
  | inf => decide
  | ninf => decide
  | finite q =>
    rw [clamp_sleep_finite]
    by_cases h0 : q < 0
    · rw [if_pos h0]
      decide
    · by_cases h24 : 24 < q
      · rw [if_neg h0, if_pos h24]
        decide
      · rw [if_neg h0, if_neg h24, clamp_sleep_finite, if_neg h0, if_neg h24]

theorem clamp_sleep_eq_nan_iff (x : PyFloat) : clamp_sleep x = .nan ↔ x = .nan := by
  cases x with
  | nan => decide
  | inf => decide
  | ninf => decide
  | finite q =>
    rw [clamp_sleep_finite]
    simp

theorem clamp_sleep_bounds (x : PyFloat) (hx : x ≠ PyFloat.nan) :
    PyFloat.le (.finite 0) (clamp_sleep x) = true
    ∧ PyFloat.le (clamp_sleep x) (.finite 24) = true := by
  cases x with
  | nan => exact absurd rfl hx
  | inf => decide
  | ninf => decide
  | finite q =>
    rw [clamp_sleep_finite]
    by_cases h0 : q < 0
    · rw [if_pos h0]
      decide
    · by_cases h24 : 24 < q
      · rw [if_neg h0, if_pos h24]
        decide
      · rw [if_neg h0, if_neg h24]
        constructor
        · simp only [PyFloat.le, decide_eq_true_eq]
          linarith
        · simp only [PyFloat.le, decide_eq_true_eq]
          linarith

/-- Claim C8 counterexample: `float("nan")` succeeds, Python's
`min(max(nan, 0.0), 24.0)` returns NaN because every comparison with NaN is
false, so for sleep input `"nan"` the sanitization returns NaN — a value
satisfying neither `0.0 <= v` nor `v <= 24.0`, hence not clamped into
`[0.0, 24.0]` as the claim states for every input string. -/
theorem c8_counterexample :
    py_float "nan" = some PyFloat.nan
    ∧ sanitize_sleep (some "nan") = PyFloat.nan
    ∧ PyFloat.le (PyFloat.finite 0) (sanitize_sleep (some "nan")) = false
    ∧ PyFloat.le (sanitize_sleep (some "nan")) (PyFloat.finite 24) = false := by decide

/-- Claim C8 (amended): the sanitization never raises — a non-numeric or
missing/empty input gives `0` / `0.0` with a logged warning; the steps value
is always the parsed integer clamped into `[0, 100000]` (`-5` gives `0`,
`150000` gives `100000`, and Python's underscore grouping and surrounding
whitespace are accepted); the sleep value is the parsed float passed through
`min(max(·, 0.0), 24.0)`, which clamps every non-NaN parse into
`[0.0, 24.0]` (`30` gives `24.0`, `1e3` and `inf` give `24.0`, `-inf` gives
`0.0`) — but a NaN parse (e.g. input `"nan"`) is returned as NaN, outside
the range, NaN being the only way a result escapes it; the clamps are
idempotent and every returned value is a clamp fixpoint (NaN included); and
`get_health_stats` returns exactly the two sanitized metrics. -/
theorem c8_health_sanitization :
    (∀ s n, py_int s = some n → sanitize_steps (some s) = clamp_steps n)
    ∧ (∀ s x, py_float s = some x → sanitize_sleep (some s) = clamp_sleep x)
    ∧ (∀ s, 0 ≤ sanitize_steps s ∧ sanitize_steps s ≤ 100000)
    ∧ (∀ s, sanitize_sleep s ≠ PyFloat.nan →
        PyFloat.le (PyFloat.finite 0) (sanitize_sleep s) = true
        ∧ PyFloat.le (sanitize_sleep s) (PyFloat.finite 24) = true)
    ∧ (∀ s, sanitize_sleep s = PyFloat.nan → py_float (s.getD "") = some PyFloat.nan)
    ∧ (∀ n, clamp_steps (clamp_steps n) = clamp_steps n)
    ∧ (∀ x, clamp_sleep (clamp_sleep x) = clamp_sleep x)
    ∧ (∀ s, clamp_steps (sanitize_steps s) = sanitize_steps s)
    ∧ (∀ s, clamp_sleep (sanitize_sleep s) = sanitize_sleep s)
    ∧ (∀ s1 s2, get_health_stats s1 s2
        = { steps := sanitize_steps s1, sleep_hours := sanitize_sleep s2 })
    ∧ sanitize_steps (some "-5") = 0
    ∧ sanitize_steps (some "150000") = 100000
    ∧ sanitize_steps (some "1_000") = 1000
    ∧ sanitize_steps (some " 42 ") = 42
    ∧ sanitize_sleep (some "30") = PyFloat.finite 24
    ∧ sanitize_sleep (some "7.5") = PyFloat.finite (mkRat 15 2)
    ∧ sanitize_sleep (some "1e3") = PyFloat.finite 24
    ∧ sanitize_sleep (some "inf") = PyFloat.finite 24
    ∧ sanitize_sleep (some "-inf") = PyFloat.finite 0
    ∧ sanitize_sleep (some "nan") = PyFloat.nan
    ∧ sanitize_steps (some "abc") = 0
    ∧ sanitize_sleep (some "abc") = PyFloat.finite 0
    ∧ sanitize_steps none = 0
    ∧ sanitize_sleep none = PyFloat.finite 0 := by
  refine ⟨?_, ?_, ?_, ?_, ?_, clamp_steps_idem, clamp_sleep_idem, ?_, ?_,
    fun s1 s2 => rfl, by decide, by decide, by decide, by decide, by decide, by decide,
    by decide, by decide, by decide, by decide, by decide, by decide, by decide, by decide⟩
  · intro s n h
    unfold sanitize_steps
    simp only [Option.getD_some]
    by_cases hs : s = ""
    · subst hs
      rw [show py_int "" = none from rfl] at h
      cases h
    · rw [if_neg hs, h]
  · intro s x h
    unfold sanitize_sleep
    simp only [Option.getD_some]
    by_cases hs : s = ""
    · subst hs
      rw [show py_float "" = none from rfl] at h
      cases h
    · rw [if_neg hs, h]
  · intro s
    unfold sanitize_steps
    dsimp only
    split
    · exact ⟨clamp_steps_nonneg 0, clamp_steps_le 0⟩
    · split
      · exact ⟨clamp_steps_nonneg _, clamp_steps_le _⟩
      · exact ⟨le_refl 0, by norm_num⟩
  · intro s
    unfold sanitize_sleep
    dsimp only
    split
    · intro _
      exact clamp_sleep_bounds (.finite 0) (by decide)
    · rcases hps : py_float (s.getD "") with _ | x
      · simp only [hps]
        intro _
        decide
      · simp only [hps]
        intro hne
        refine clamp_sleep_bounds x (fun hxn => hne ?_)
        rw [hxn]
        decide
  · intro s
    unfold sanitize_sleep
    dsimp only
    split
    · intro h
      exact absurd h (by decide)
    · rcases hps : py_float (s.getD "") with _ | x
      · simp only [hps]
        intro h
        exact absurd h (by decide)
      · simp only [hps]
        intro h
        rw [(clamp_sleep_eq_nan_iff x).mp h]
  · intro s
    unfold sanitize_steps
    dsimp only
    split
    · exact clamp_steps_idem 0
    · split
      · exact clamp_steps_idem _
      · decide
  · intro s
    unfold sanitize_sleep
    dsimp only
    split
    · exact clamp_sleep_idem (.finite 0)
    · rcases hps : py_float (s.getD "") with _ | x
      · simp only [hps]
        decide
      · simp only [hps]
        exact clamp_sleep_idem x

/-- Witness for C8: a parsed in-range value is returned clamped (unchanged),
exercising the parsed-value clause of the theorem at input `"42"`. -/
theorem c8_health_sanitization_witness : sanitize_steps (some "42") = 42 := by
  have h := c8_health_sanitization
  exact (h.1 "42" 42 (by decide)).trans (by decide)

theorem takeWhile_append_all {p : Char → Bool} {l r : List Char}
    (h : ∀ a ∈ l, p a = true) : (l ++ r).takeWhile p = l ++ r.takeWhile p := by
  induction l with
  | nil => simp
  | cons c t ih =>
    have hc := h c (List.mem_cons_self c t)
    simp only [List.cons_append, List.takeWhile_cons, hc, if_true]
    rw [ih (fun a ha => h a (List.mem_cons_of_mem c ha))]

theorem dropWhile_append_all {p : Char → Bool} {l r : List Char}
    (h : ∀ a ∈ l, p a = true) : (l ++ r).dropWhile p = r.dropWhile p := by
  induction l with
  | nil => simp
  | cons c t ih =>
    have hc := h c (List.mem_cons_self c t)
    simp only [List.cons_append, List.dropWhile_cons, hc, if_true]
    exact ih (fun a ha => h a (List.mem_cons_of_mem c ha))

theorem match_link_at_link (label url post : List Char)
    (hl : label ≠ []) (hlc : ∀ ch ∈ label, ch ≠ ']')
    (hu : url ≠ []) (huc : ∀ ch ∈ url, ch ≠ ')') :
    match_link (label ++ ']' :: '(' :: (url ++ ')' :: post))
      = some (label ++ ':' :: ' ' :: url, post) := by
  have htake1 : (label ++ ']' :: '(' :: (url ++ ')' :: post)).takeWhile
      (fun c => c ≠ ']') = label := by
    rw [takeWhile_append_all (by simpa using hlc)]
    simp [List.takeWhile_cons]
  have hdrop1 : (label ++ ']' :: '(' :: (url ++ ')' :: post)).dropWhile
      (fun c => c ≠ ']') = ']' :: '(' :: (url ++ ')' :: post) := by
    rw [dropWhile_append_all (by simpa using hlc)]
    simp [List.dropWhile_cons]
  have htake2 : (url ++ ')' :: post).takeWhile (fun c => c ≠ ')') = url := by
    rw [takeWhile_append_all (by simpa using huc)]
    simp [List.takeWhile_cons]
  have hdrop2 : (url ++ ')' :: post).dropWhile (fun c => c ≠ ')') = ')' :: post := by
    rw [dropWhile_append_all (by simpa using huc)]
    simp [List.dropWhile_cons]
  rcases label with _ | ⟨lc, lt⟩
  · exact absurd rfl hl
  rcases url with _ | ⟨uc, ut⟩
  · exact absurd rfl hu
  unfold match_link
  dsimp only
  rw [htake1, hdrop1]
  dsimp only
  rw [if_pos rfl]
  rw [htake2, hdrop2]

theorem stripGo_nil : stripGo [] = [] := by rw [stripGo]

theorem stripGo_link (pre label url post : List Char)
    (hpre : ∀ ch ∈ pre, ch ≠ '[')
    (hl : label ≠ []) (hlc : ∀ ch ∈ label, ch ≠ ']')
    (hu : url ≠ []) (huc : ∀ ch ∈ url, ch ≠ ')') :
    stripGo (pre ++ '[' :: (label ++ ']' :: '(' :: (url ++ ')' :: post)))
      = pre ++ (label ++ ':' :: ' ' :: url) ++ stripGo post := by
  have hml := match_link_at_link label url post hl hlc hu huc
  induction pre with
  | nil =>
    simp only [List.nil_append]
    rw [stripGo]
    rw [if_pos rfl]
    split
    · rename_i repl r5 heq
      rw [hml] at heq
      cases heq
      simp
    · rename_i heq
      rw [hml] at heq
      cases heq
  | cons c pt ih =>
    have hc : (c = '[') = False := by
      simpa using hpre c (List.mem_cons_self c pt)
    simp only [List.cons_append]
    rw [stripGo]
    rw [if_neg (by simp [hc])]
    rw [ih (fun a ha => hpre a (List.mem_cons_of_mem c ha))]

/-- Claim C9: the plain-text notifier's markdown stripping rewrites a
hyperlink `[label](url)` (nonempty label without `]`, nonempty url without
`)`) to `label: url`, leaving any bracket-free text before it intact and the
rest of the document after it to further rewriting; in particular
`"[title](http://x)"` formats to `"title: http://x"`, with no literal
brackets remaining. -/
theorem c9_feishu_strips_markdown_links (pre label url post : List Char)
    (hpre : ∀ ch ∈ pre, ch ≠ '[')
    (hl : label ≠ []) (hlc : ∀ ch ∈ label, ch ≠ ']')
    (hu : url ≠ []) (huc : ∀ ch ∈ url, ch ≠ ')') :
    stripGo (pre ++ '[' :: (label ++ ']' :: '(' :: (url ++ ')' :: post)))
      = pre ++ (label ++ ':' :: ' ' :: url) ++ stripGo post
    ∧ strip_markdown_links "[title](http://x)" = "title: http://x"
    ∧ '[' ∉ (strip_markdown_links "[title](http://x)").data
    ∧ ']' ∉ (strip_markdown_links "[title](http://x)").data := by
  have hconc : strip_markdown_links "[title](http://x)" = "title: http://x" := by
    unfold strip_markdown_links
    have hdata : "[title](http://x)".data
        = [] ++ '[' :: ("title".data ++ ']' :: '(' :: ("http://x".data ++ ')' :: [])) := by
      decide
    rw [hdata,
      stripGo_link [] "title".data "http://x".data []
        (by decide) (by decide) (by decide) (by decide) (by decide),
      stripGo_nil]
    decide
  refine ⟨stripGo_link pre label url post hpre hl hlc hu huc, hconc, ?_, ?_⟩
  · rw [hconc]
    decide
  · rw [hconc]
    decide

/-- Witness for C9: the single-link rewriting applied to
`[title](http://x)` with empty surrounding text. -/
theorem c9_feishu_strips_markdown_links_witness :
    stripGo ([] ++ '[' :: ("title".data ++ ']' :: '(' :: ("http://x".data ++ ')' :: [])))
      = [] ++ ("title".data ++ ':' :: ' ' :: "http://x".data) ++ stripGo [] :=
  (c9_feishu_strips_markdown_links [] "title".data "http://x".data []
    (by decide) (by decide) (by decide) (by decide) (by decide)).1

/-- Claim C10: goal comparison in the health formatter is inclusive — the
success indicator is chosen exactly when the step count is ≥ the configured
step goal (equality counts as met), likewise for sleep hours against the
sleep goal; and when the respective metric is positive its goal-marked
bullet line is part of the formatted message. -/
theorem c10_goal_comparison_inclusive (cfg : Config) (data : HealthData) :
    (step_goal_emoji cfg data.steps = "✅" ↔ cfg.STEP_GOAL ≤ data.steps)
    ∧ (step_goal_emoji cfg data.steps = "📊" ↔ ¬ cfg.STEP_GOAL ≤ data.steps)
    ∧ (sleep_goal_emoji cfg data.sleep_hours = "✅" ↔ cfg.SLEEP_GOAL_HOURS ≤ data.sleep_hours)
    ∧ (sleep_goal_emoji cfg data.sleep_hours = "⚠️" ↔ ¬ cfg.SLEEP_GOAL_HOURS ≤ data.sleep_hours)
    ∧ (0 < data.steps → health_steps_line cfg data.steps ∈ format_health_lines cfg data)
    ∧ (0 < data.sleep_hours → health_sleep_line cfg data.sleep_hours ∈ format_health_lines cfg data) := by
  refine ⟨?_, ?_, ?_, ?_, ?_, ?_⟩
  · unfold step_goal_emoji
    split <;> simp_all
  · unfold step_goal_emoji
    split <;> simp_all
  · unfold sleep_goal_emoji
    split <;> simp_all
  · unfold sleep_goal_emoji
    split <;> simp_all
  · intro h
    unfold format_health_lines
    dsimp only
    split <;> split <;> simp_all
  · intro h
    unfold format_health_lines
    dsimp only
    split <;> split <;> simp_all

/-- Witness for C10: with the default goals (10000 steps, 7.5 hours), a step
count of exactly 10000 and sleep of exactly 7.5 hours both select the
success indicator, and both goal-marked lines appear in the message. -/
theorem c10_goal_comparison_witness :
    step_goal_emoji {} (10000 : Int) = "✅"
    ∧ sleep_goal_emoji {} (mkRat 15 2) = "✅"
    ∧ health_steps_line {} 10000 ∈ format_health_lines {} ⟨10000, mkRat 15 2⟩ := by
  have h := c10_goal_comparison_inclusive {} ⟨10000, mkRat 15 2⟩
  exact ⟨h.1.mpr (by decide), h.2.2.1.mpr (by decide), h.2.2.2.2.1 (by decide)⟩

end DailyBot
